import Mathlib

/-!
Verification of the Flask session route in `src/server/app.py`.

The handler `show_session(key)`:
* lazily initializes the session fields `"hello"`, `"goodnight"`, `"count"`
  with the Python truthiness pattern `session.get(k) or default`;
* increments `session["count"]` when the path key equals `"count"`;
* returns a JSON body `{"session": {"session_key", "session_value",
  "session_accessed"}, "cookies": [...]}` with HTTP status 200, where
  `session_value` is `session[key]` — a lookup that raises `KeyError`
  for keys absent from the session dict.

The embedding models the session dict as an insertion-ordered association
list of string keys to Python values (strings or integers, the only value
types this app ever stores), Python truthiness, and the two runtime faults
the handler can raise (`KeyError` on the final lookup, `TypeError` if
`+= 1` ever hits a non-integer).
-/

set_option autoImplicit false

namespace SessionApp

/-- A Python value stored in the session: the app stores only strings
(`"World"`, `"Moon"`) and integers (`count`). -/
inductive Val where
  | str : String → Val
  | int : Int → Val
deriving DecidableEq, Repr

/-- Python truthiness on the stored values: a string is truthy iff
non-empty, an integer is truthy iff non-zero. -/
def truthy : Val → Bool
  | .str s => !s.isEmpty
  | .int n => n != 0

/-- The session dict: an insertion-ordered association list, matching a
Python dict's key order (updates keep position, new keys append). -/
abbrev Session := List (String × Val)

/-- `session.get(k)`: first binding of `k`, or `none`. -/
def sget (s : Session) (k : String) : Option Val :=
  match s with
  | [] => none
  | (k2, v) :: rest => if k = k2 then some v else sget rest k

/-- `session[k] = v`: replace the binding in place if present, else append. -/
def sset (s : Session) (k : String) (v : Val) : Session :=
  match s with
  | [] => [(k, v)]
  | (k2, v2) :: rest => if k = k2 then (k, v) :: rest else (k2, v2) :: sset rest k v

/-- Python `x or d` applied to an optional lookup result: keep `x` when
present and truthy, otherwise the default `d`. -/
def orDefault (v : Option Val) (d : Val) : Val :=
  match v with
  | some v => if truthy v then v else d
  | none => d

/-- Lines 19-21 of `app.py`:
`session["hello"] = session.get("hello") or "World"` and likewise for
`"goodnight"` / `"Moon"` and `"count"` / `0`, in source order. -/
def initSession (s : Session) : Session :=
  let s1 := sset s "hello" (orDefault (sget s "hello") (.str "World"))
  let s2 := sset s1 "goodnight" (orDefault (sget s1 "goodnight") (.str "Moon"))
  sset s2 "count" (orDefault (sget s2 "count") (.int 0))

/-- A fault the handler can raise: `KeyError` from `session[key]` (or from
`session["count"] += 1` on a missing key), `TypeError` from `+= 1` on a
non-integer. -/
inductive HandlerErr where
  | keyError : String → HandlerErr
  | typeError : HandlerErr
deriving DecidableEq, Repr

/-- The JSON body and status the handler returns: the `"session"` object
(`session_key`, `session_value`, `session_accessed`) plus the `"cookies"`
echo list and the HTTP status code. -/
structure Response where
  status : Nat
  session_key : String
  session_value : Val
  session_accessed : Bool
  cookies : List (String × String)
deriving DecidableEq, Repr

/-- Lines 24-25 of `app.py`: `session["count"] += 1`, with Python's
runtime faults when `count` is absent or not an integer. -/
def incrCount (s : Session) : Except HandlerErr Session :=
  match sget s "count" with
  | some (.int n) => .ok (sset s "count" (.int (n + 1)))
  | some (.str _) => .error .typeError
  | none => .error (.keyError "count")

/-- The route handler `show_session` of `app.py`: initialize the three
fields, increment `count` when `key = "count"`, then build the
200 response around `session[key]` (which raises `KeyError` when `key`
is not in the session). `session.accessed` is `true` because the handler
always reads the session. Returns the updated session and the response,
or the fault raised. -/
def show_session (key : String) (cookies : List (String × String)) (s : Session) :
    Except HandlerErr (Session × Response) :=
  let s1 := initSession s
  match (if key = "count" then incrCount s1 else .ok s1) with
  | .error e => .error e
  | .ok s2 =>
    match sget s2 key with
    | none => .error (.keyError key)
    | some v => .ok (s2, ⟨200, key, v, true, cookies⟩)

/-- The session state the client holds after a request: the updated state
on success; on a fault Flask sends a 500 without a `Set-Cookie`, so the
client keeps the previous session state. -/
def nextSession (key : String) (cookies : List (String × String)) (s : Session) : Session :=
  match show_session key cookies s with
  | .ok (s2, _) => s2
  | .error _ => s

/-- Session states a client of this app can actually present: the session
cookie is signed with the server secret, so the only states are the empty
(fresh/expired) session and the outputs of successful handler runs. -/
inductive Reachable : Session → Prop
  | nil : Reachable []
  | step (key : String) (cookies : List (String × String)) (s s2 : Session) (r : Response) :
      Reachable s → show_session key cookies s = .ok (s2, r) → Reachable s2

/-- The session state after the handler has run at least once with
counter value `n`: the three fields in insertion order. -/
def countState (n : Nat) : Session :=
  [("hello", .str "World"), ("goodnight", .str "Moon"), ("count", .int n)]

/-- Run `n` consecutive `GET /sessions/count` requests, threading the
session and collecting the responses in order. -/
def runCounts (cookies : List (String × String)) : Nat → Session →
    Except HandlerErr (Session × List Response)
  | 0, s => .ok (s, [])
  | n + 1, s =>
    match show_session "count" cookies s with
    | .error e => .error e
    | .ok (s2, r) =>
      match runCounts cookies n s2 with
      | .error e => .error e
      | .ok (s3, rs) => .ok (s3, r :: rs)

/-- Well-formed session states: every key outside the three fields is
absent, and `count`, when present, holds an integer. Every state this
app's handler can produce satisfies this. -/
def WF (s : Session) : Prop :=
  (∀ k, k ≠ "hello" → k ≠ "goodnight" → k ≠ "count" → sget s k = none) ∧
  (∀ v, sget s "count" = some v → ∃ n : Int, v = .int n)

theorem sget_sset (s : Session) (k k2 : String) (v : Val) :
    sget (sset s k v) k2 = if k2 = k then some v else sget s k2 := by
  induction s with
  | nil =>
    simp only [sset, sget]
  | cons hd tl ih =>
    obtain ⟨k3, v3⟩ := hd
    by_cases hk : k = k3
    · subst hk
      by_cases h2 : k2 = k <;> simp [sset, sget, h2]
    · by_cases h2 : k2 = k3 <;> by_cases h3 : k2 = k <;>
        simp_all [sset, sget]

theorem sget_init_hello (s : Session) :
    sget (initSession s) "hello" = some (orDefault (sget s "hello") (.str "World")) := by
  simp [initSession, sget_sset]

theorem sget_init_goodnight (s : Session) :
    sget (initSession s) "goodnight" = some (orDefault (sget s "goodnight") (.str "Moon")) := by
  simp [initSession, sget_sset]

theorem sget_init_count (s : Session) :
    sget (initSession s) "count" = some (orDefault (sget s "count") (.int 0)) := by
  simp [initSession, sget_sset]

theorem sget_init_other (s : Session) (k : String)
    (h1 : k ≠ "hello") (h2 : k ≠ "goodnight") (h3 : k ≠ "count") :
    sget (initSession s) k = sget s k := by
  simp [initSession, sget_sset, h1, h2, h3]

theorem truthy_orDefault (v : Option Val) (d : Val) (hd : truthy d = true) :
    truthy (orDefault v d) = true := by
  match v with
  | none => exact hd
  | some w =>
    by_cases hw : truthy w = true <;> simp [orDefault, hw, hd]

theorem orDefault_of_truthy (v : Val) (d : Val) (hv : truthy v = true) :
    orDefault (some v) d = v := by
  simp [orDefault, hv]

theorem orDefault_int_zero (n : Int) :
    orDefault (some (.int n)) (.int 0) = .int n := by
  by_cases h : n = 0 <;> simp [orDefault, truthy, h]

theorem show_session_not_count (key : String) (c : List (String × String)) (s : Session)
    (hk : key ≠ "count") :
    show_session key c s =
      match sget (initSession s) key with
      | none => .error (.keyError key)
      | some v => .ok (initSession s, ⟨200, key, v, true, c⟩) := by
  simp [show_session, hk]

theorem show_session_count (c : List (String × String)) (s : Session) (m : Int)
    (h : sget (initSession s) "count" = some (.int m)) :
    show_session "count" c s =
      .ok (sset (initSession s) "count" (.int (m + 1)),
           ⟨200, "count", .int (m + 1), true, c⟩) := by
  simp [show_session, incrCount, h, sget_sset]

theorem incrCount_ok (t t2 : Session) (h : incrCount t = .ok t2) :
    ∃ n : Int, sget t "count" = some (.int n) ∧ t2 = sset t "count" (.int (n + 1)) := by
  unfold incrCount at h
  cases hg : sget t "count" with
  | none => rw [hg] at h; cases h
  | some v =>
    cases v with
    | str a => rw [hg] at h; cases h
    | int n => rw [hg] at h; cases h; exact ⟨n, rfl, rfl⟩

theorem show_session_ok_sget (key : String) (c : List (String × String)) (s s2 : Session)
    (r : Response) (h : show_session key c s = .ok (s2, r)) (k2 : String)
    (hk2 : k2 ≠ "count") :
    sget s2 k2 = sget (initSession s) k2 := by
  by_cases hk : key = "count"
  · subst hk
    simp only [show_session, ite_true] at h
    cases hic : incrCount (initSession s) with
    | error e => rw [hic] at h; cases h
    | ok t2 =>
      rw [hic] at h
      dsimp only at h
      obtain ⟨n, hn, ht2⟩ := incrCount_ok _ _ hic
      cases hg : sget t2 "count" with
      | none => rw [hg] at h; cases h
      | some v =>
        rw [hg] at h
        cases h
        rw [ht2, sget_sset, if_neg hk2]
  · rw [show_session_not_count key c s hk] at h
    cases hg : sget (initSession s) key with
    | none => rw [hg] at h; cases h
    | some v => rw [hg] at h; cases h; rfl

theorem WF_nil : WF [] := by
  constructor
  · intro k _ _ _; rfl
  · intro v hv; simp [sget] at hv

theorem orDefault_count_wf (s : Session) (hwf : WF s) :
    ∃ m : Int, orDefault (sget s "count") (.int 0) = .int m := by
  cases hg : sget s "count" with
  | none => exact ⟨0, rfl⟩
  | some v =>
    obtain ⟨n, rfl⟩ := hwf.2 v hg
    exact ⟨n, orDefault_int_zero n⟩

theorem WF_init (s : Session) (hwf : WF s) : WF (initSession s) := by
  obtain ⟨m, hm⟩ := orDefault_count_wf s hwf
  constructor
  · intro k h1 h2 h3
    rw [sget_init_other s k h1 h2 h3]
    exact hwf.1 k h1 h2 h3
  · intro v hv
    rw [sget_init_count, hm] at hv
    injection hv with h
    exact ⟨m, h.symm⟩

theorem WF_step (key : String) (c : List (String × String)) (s s2 : Session) (r : Response)
    (hwf : WF s) (h : show_session key c s = .ok (s2, r)) : WF s2 := by
  have hwfi := WF_init s hwf
  by_cases hk : key = "count"
  · subst hk
    obtain ⟨m, hm⟩ := orDefault_count_wf s hwf
    have hcount : sget (initSession s) "count" = some (.int m) := by
      rw [sget_init_count, hm]
    rw [show_session_count c s m hcount] at h
    cases h
    constructor
    · intro k h1 h2 h3
      rw [sget_sset, if_neg h3, sget_init_other s k h1 h2 h3]
      exact hwf.1 k h1 h2 h3
    · intro v hv
      rw [sget_sset, if_pos rfl] at hv
      injection hv with h
      exact ⟨m + 1, h.symm⟩
  · rw [show_session_not_count key c s hk] at h
    cases hg : sget (initSession s) key with
    | none => rw [hg] at h; cases h
    | some v => rw [hg] at h; cases h; exact hwfi

theorem Reachable.wf (s : Session) (hr : Reachable s) : WF s := by
  induction hr with
  | nil => exact WF_nil
  | step key c t t2 r _ hok ih => exact WF_step key c t t2 r ih hok

theorem initSession_countState (n : Nat) :
    initSession (countState n) = countState n := by
  have h1 : orDefault (some (Val.str "World")) (.str "World") = .str "World" := rfl
  have h2 : orDefault (some (Val.str "Moon")) (.str "Moon") = .str "Moon" := rfl
  simp [initSession, countState, sget, sset, h1, h2, orDefault_int_zero]

theorem show_session_countState (c : List (String × String)) (n : Nat) :
    show_session "count" c (countState n) =
      .ok (countState (n + 1), ⟨200, "count", .int ((n + 1 : Nat) : Int), true, c⟩) := by
  have hc : sget (initSession (countState n)) "count" = some (.int n) := by
    rw [initSession_countState]; rfl
  have hcast : ((n : Int) + 1) = ((n + 1 : Nat) : Int) := by push_cast; ring
  rw [show_session_count c (countState n) n hc, initSession_countState, hcast]
  rfl

theorem runCounts_countState (c : List (String × String)) (N n : Nat) :
    runCounts c N (countState n) =
      .ok (countState (n + N),
           (List.range N).map
             fun i => ⟨200, "count", .int ((n + i + 1 : Nat) : Int), true, c⟩) := by
  induction N generalizing n with
  | zero => simp [runCounts]
  | succ m ih =>
    simp only [runCounts, show_session_countState, ih]
    have hstate : n + 1 + m = n + (m + 1) := by omega
    rw [hstate]
    have hresp : (List.range (m + 1)).map
        (fun i => (⟨200, "count", .int ((n + i + 1 : Nat) : Int), true, c⟩ : Response)) =
        (⟨200, "count", .int ((n + 1 : Nat) : Int), true, c⟩ : Response) ::
          (List.range m).map
            (fun i => (⟨200, "count", .int ((n + 1 + i + 1 : Nat) : Int), true, c⟩ :
              Response)) := by
      rw [List.range_succ_eq_map, List.map_cons, List.map_map]
      congr 1
      refine List.map_congr_left fun i _ => ?_
      show (⟨200, "count", .int ((n + (i + 1) + 1 : Nat) : Int), true, c⟩ : Response) = _
      have h1 : n + (i + 1) + 1 = n + 1 + i + 1 := by omega
      rw [h1]
    rw [hresp]

theorem orDefault_spec (v? : Option Val) (d : Val) :
    ((v? = none ∨ ∃ v, v? = some v ∧ truthy v = false) → orDefault v? d = d) ∧
    (∀ v, v? = some v → truthy v = true → orDefault v? d = v) := by
  constructor
  · rintro (rfl | ⟨v, rfl, hfv⟩)
    · rfl
    · simp [orDefault, hfv]
  · rintro v rfl htv
    simp [orDefault, htv]

theorem show_session_ok_hello (key : String) (c : List (String × String)) (s s2 : Session)
    (r : Response) (h : show_session key c s = .ok (s2, r)) :
    sget s2 "hello" = some (orDefault (sget s "hello") (.str "World")) := by
  rw [show_session_ok_sget key c s s2 r h "hello" (by decide), sget_init_hello]

theorem show_session_ok_goodnight (key : String) (c : List (String × String)) (s s2 : Session)
    (r : Response) (h : show_session key c s = .ok (s2, r)) :
    sget s2 "goodnight" = some (orDefault (sget s "goodnight") (.str "Moon")) := by
  rw [show_session_ok_sget key c s s2 r h "goodnight" (by decide), sget_init_goodnight]

/-- C1: on every session state this app can produce (`Reachable`), a
`GET /sessions/{key}` request fails with an unhandled key lookup
(`KeyError key`) if and only if `key` is not one of `"hello"`,
`"goodnight"`, `"count"`; for those three keys the handler succeeds on
every path. -/
theorem claim_C1 (key : String) (c : List (String × String)) (s : Session)
    (hr : Reachable s) :
    ((key = "hello" ∨ key = "goodnight" ∨ key = "count") →
      ∃ p, show_session key c s = .ok p) ∧
    (key ≠ "hello" → key ≠ "goodnight" → key ≠ "count" →
      show_session key c s = .error (.keyError key)) := by
  have hwf := Reachable.wf s hr
  constructor
  · rintro (rfl | rfl | rfl)
    · rw [show_session_not_count _ c s (by decide), sget_init_hello]
      exact ⟨_, rfl⟩
    · rw [show_session_not_count _ c s (by decide), sget_init_goodnight]
      exact ⟨_, rfl⟩
    · obtain ⟨m, hm⟩ := orDefault_count_wf s hwf
      have hc : sget (initSession s) "count" = some (.int m) := by
        rw [sget_init_count, hm]
      exact ⟨_, show_session_count c s m hc⟩
  · intro h1 h2 h3
    rw [show_session_not_count _ c s h3]
    have hnone : sget (initSession s) key = none := by
      rw [sget_init_other s key h1 h2 h3]
      exact hwf.1 key h1 h2 h3
    rw [hnone]

/-- Witness for C1: on a fresh session, `key = "hello"` succeeds and the
unknown key `"foo"` fails with `KeyError "foo"`. -/
theorem claim_C1_witness :
    (∃ p, show_session "hello" [] [] = .ok p) ∧
    show_session "foo" [] [] = .error (.keyError "foo") :=
  ⟨(claim_C1 "hello" [] [] Reachable.nil).1 (Or.inl rfl),
   (claim_C1 "foo" [] [] Reachable.nil).2 (by decide) (by decide) (by decide)⟩

/-- C2 counterexample: the claim says every key gets a 200 response, but
on a fresh session the unknown key `"foo"` makes the handler raise
`KeyError` — it never produces a response at all. -/
theorem claim_C2_counterexample :
    ¬ ∃ p : Session × Response, show_session "foo" [] [] = .ok p := by
  rintro ⟨p, hp⟩
  have h : show_session "foo" [] [] = .error (.keyError "foo") := rfl
  rw [h] at hp
  cases hp

/-- C2 amended: on reachable session states, a request for one of the
three known keys responds with HTTP status 200; for any other key the
handler fails with an unhandled `KeyError` instead of responding. -/
theorem claim_C2_amended (key : String) (c : List (String × String)) (s : Session)
    (hr : Reachable s)
    (hk : key = "hello" ∨ key = "goodnight" ∨ key = "count") :
    ∃ s2 r, show_session key c s = .ok (s2, r) ∧ r.status = 200 := by
  have hwf := Reachable.wf s hr
  obtain rfl | rfl | rfl := hk
  · rw [show_session_not_count _ c s (by decide), sget_init_hello]
    exact ⟨_, _, rfl, rfl⟩
  · rw [show_session_not_count _ c s (by decide), sget_init_goodnight]
    exact ⟨_, _, rfl, rfl⟩
  · obtain ⟨m, hm⟩ := orDefault_count_wf s hwf
    have hc : sget (initSession s) "count" = some (.int m) := by
      rw [sget_init_count, hm]
    exact ⟨_, _, show_session_count c s m hc, rfl⟩

/-- Witness for C2 (amended): `key = "hello"` on a fresh session yields a
200 response. -/
theorem claim_C2_witness :
    ∃ s2 r, show_session "hello" [] [] = .ok (s2, r) ∧ r.status = 200 :=
  claim_C2_amended "hello" [] [] Reachable.nil (Or.inl rfl)

/-- C4: on a session where none of the three fields is set, the
initialization step (the handler's first three lines, before the optional
increment) sets `hello = "World"`, `goodnight = "Moon"`, `count = 0`. -/
theorem claim_C4 (s : Session)
    (h1 : sget s "hello" = none) (h2 : sget s "goodnight" = none)
    (h3 : sget s "count" = none) :
    sget (initSession s) "hello" = some (.str "World") ∧
    sget (initSession s) "goodnight" = some (.str "Moon") ∧
    sget (initSession s) "count" = some (.int 0) := by
  rw [sget_init_hello, sget_init_goodnight, sget_init_count, h1, h2, h3]
  exact ⟨rfl, rfl, rfl⟩

/-- Witness for C4 at the empty session. -/
theorem claim_C4_witness :
    sget ([] : Session) "hello" = none ∧
    (sget (initSession []) "hello" = some (.str "World") ∧
     sget (initSession []) "goodnight" = some (.str "Moon") ∧
     sget (initSession []) "count" = some (.int 0)) :=
  ⟨rfl, claim_C4 [] rfl rfl rfl⟩

/-- C5: after initialization, requesting `key = "hello"` returns exactly
`session_key = "hello"`, `session_value = "World"`,
`session_accessed = true`, plus the request's cookie map, and leaves the
session unchanged. -/
theorem claim_C5 (c : List (String × String)) :
    show_session "hello" c (initSession []) =
      .ok (initSession [], ⟨200, "hello", .str "World", true, c⟩) := rfl

/-- C3: starting from a fresh session, `N + 1` consecutive
`GET /sessions/count` requests with no interleaving requests leave the
session's `count` field equal to `N + 1`, and the responses report the
count as `1, 2, ..., N + 1` in order. -/
theorem claim_C3 (c : List (String × String)) (N : Nat) :
    ∃ sN rs, runCounts c (N + 1) [] = .ok (sN, rs) ∧
      sget sN "count" = some (.int ((N + 1 : Nat) : Int)) ∧
      rs.map (fun r => r.session_value) =
        (List.range (N + 1)).map (fun i => Val.int ((i + 1 : Nat) : Int)) := by
  have h0 : show_session "count" c [] =
      .ok (countState 1, ⟨200, "count", .int ((1 : Nat) : Int), true, c⟩) := rfl
  have hrun : runCounts c (N + 1) [] =
      .ok (countState (1 + N),
        (⟨200, "count", .int ((1 : Nat) : Int), true, c⟩ : Response) ::
          (List.range N).map
            (fun i => (⟨200, "count", .int ((1 + i + 1 : Nat) : Int), true, c⟩ :
              Response))) := by
    simp only [runCounts, h0, runCounts_countState]
  rw [Nat.add_comm 1 N] at hrun
  refine ⟨countState (N + 1), _, hrun, rfl, ?_⟩
  rw [List.map_cons, List.map_map, List.range_succ_eq_map, List.map_cons, List.map_map]
  congr 1
  refine List.map_congr_left fun i _ => ?_
  show Val.int ((1 + i + 1 : Nat) : Int) = Val.int (((i + 1) + 1 : Nat) : Int)
  have h1 : 1 + i + 1 = (i + 1) + 1 := by omega
  rw [h1]

/-- C6 counterexample: with `hello` present but bound to the empty string
(a falsy value), initialization overwrites it with the default `"World"`
instead of leaving it at its existing value. -/
theorem claim_C6_counterexample :
    sget ([("hello", Val.str "")] : Session) "hello" = some (.str "") ∧
    sget (initSession [("hello", Val.str "")]) "hello" = some (.str "World") :=
  ⟨rfl, rfl⟩

/-- C6 amended: for every incoming session state, the initialization step
sets each of `hello`, `goodnight`, `count` to its default if the field is
absent **or bound to a falsy value** (empty string or zero), and leaves
the field unchanged if it is present with a truthy value. (For `count`
the falsy case coincides with its default `0`, so the rewrite is
invisible there.) -/
theorem claim_C6_amended (s : Session) (k : String) (d : Val)
    (hk : (k = "hello" ∧ d = Val.str "World") ∨ (k = "goodnight" ∧ d = Val.str "Moon") ∨
          (k = "count" ∧ d = Val.int 0)) :
    ((sget s k = none ∨ ∃ v, sget s k = some v ∧ truthy v = false) →
      sget (initSession s) k = some d) ∧
    (∀ v, sget s k = some v → truthy v = true → sget (initSession s) k = some v) := by
  obtain ⟨rfl, rfl⟩ | ⟨rfl, rfl⟩ | ⟨rfl, rfl⟩ := hk
  · refine ⟨fun h => ?_, fun v hv htv => ?_⟩
    · rw [sget_init_hello, (orDefault_spec (sget s "hello") _).1 h]
    · rw [sget_init_hello, (orDefault_spec (sget s "hello") _).2 v hv htv]
  · refine ⟨fun h => ?_, fun v hv htv => ?_⟩
    · rw [sget_init_goodnight, (orDefault_spec (sget s "goodnight") _).1 h]
    · rw [sget_init_goodnight, (orDefault_spec (sget s "goodnight") _).2 v hv htv]
  · refine ⟨fun h => ?_, fun v hv htv => ?_⟩
    · rw [sget_init_count, (orDefault_spec (sget s "count") _).1 h]
    · rw [sget_init_count, (orDefault_spec (sget s "count") _).2 v hv htv]

/-- Witness for C6 (amended): a truthy stored value `hello = "X"` is kept
by initialization. -/
theorem claim_C6_witness :
    sget ([("hello", Val.str "X")] : Session) "hello" = some (.str "X") ∧
    sget (initSession [("hello", Val.str "X")]) "hello" = some (.str "X") :=
  ⟨rfl, (claim_C6_amended [("hello", Val.str "X")] "hello" (Val.str "World")
      (Or.inl ⟨rfl, rfl⟩)).2 (Val.str "X") rfl rfl⟩

/-- C7: once the handler has completed a request (so `hello` and
`goodnight` have been set), every subsequent request — with any key, and
whether it succeeds or faults — leaves `hello` and `goodnight` at their
existing values. -/
theorem claim_C7 (s : Session) (key : String) (c : List (String × String))
    (s2 : Session) (r : Response) (h : show_session key c s = .ok (s2, r))
    (key2 : String) (c2 : List (String × String)) :
    sget (nextSession key2 c2 s2) "hello" = sget s2 "hello" ∧
    sget (nextSession key2 c2 s2) "goodnight" = sget s2 "goodnight" := by
  have hh : sget s2 "hello" = some (orDefault (sget s "hello") (.str "World")) :=
    show_session_ok_hello key c s s2 r h
  have hg : sget s2 "goodnight" = some (orDefault (sget s "goodnight") (.str "Moon")) :=
    show_session_ok_goodnight key c s s2 r h
  rw [nextSession]
  cases h2 : show_session key2 c2 s2 with
  | error e => exact ⟨rfl, rfl⟩
  | ok p =>
    obtain ⟨s3, r3⟩ := p
    have hh3 : sget s3 "hello" = some (orDefault (sget s2 "hello") (.str "World")) :=
      show_session_ok_hello key2 c2 s2 s3 r3 h2
    have hg3 : sget s3 "goodnight" = some (orDefault (sget s2 "goodnight") (.str "Moon")) :=
      show_session_ok_goodnight key2 c2 s2 s3 r3 h2
    constructor
    · show sget s3 "hello" = sget s2 "hello"
      rw [hh3, hh,
        orDefault_of_truthy _ _ (truthy_orDefault (sget s "hello") (.str "World") rfl)]
    · show sget s3 "goodnight" = sget s2 "goodnight"
      rw [hg3, hg,
        orDefault_of_truthy _ _ (truthy_orDefault (sget s "goodnight") (.str "Moon") rfl)]

/-- Witness for C7: after a first `"hello"` request on a fresh session, a
subsequent `"foo"` request preserves `hello` and `goodnight`. -/
theorem claim_C7_witness :
    sget (nextSession "foo" [] (initSession [])) "hello" =
      sget (initSession []) "hello" ∧
    sget (nextSession "foo" [] (initSession [])) "goodnight" =
      sget (initSession []) "goodnight" :=
  claim_C7 [] "hello" [] (initSession []) ⟨200, "hello", .str "World", true, []⟩ rfl
    "foo" []

/-- C8: for every session whose `count` field holds an integer `n`, the
`count` field after any request (any key, success or fault) holds an
integer `m ≥ n`: `count` is monotonically non-decreasing. -/
theorem claim_C8 (s : Session) (key : String) (c : List (String × String)) (n : Int)
    (h : sget s "count" = some (.int n)) :
    ∃ m : Int, sget (nextSession key c s) "count" = some (.int m) ∧ n ≤ m := by
  have hic : sget (initSession s) "count" = some (.int n) := by
    rw [sget_init_count, h, orDefault_int_zero]
  by_cases hk : key = "count"
  · subst hk
    rw [nextSession, show_session_count c s n hic]
    exact ⟨n + 1, by rw [sget_sset, if_pos rfl], by omega⟩
  · rw [nextSession, show_session_not_count key c s hk]
    cases hg : sget (initSession s) key with
    | none => exact ⟨n, h, le_refl n⟩
    | some v => exact ⟨n, hic, le_refl n⟩

/-- Witness for C8: a `"count"` request on a session with `count = 5`
yields a value `≥ 5`. -/
theorem claim_C8_witness :
    sget ([("count", Val.int 5)] : Session) "count" = some (.int 5) ∧
    ∃ m : Int, sget (nextSession "count" [] [("count", Val.int 5)]) "count" =
      some (.int m) ∧ 5 ≤ m :=
  ⟨rfl, claim_C8 [("count", Val.int 5)] "count" [] 5 rfl⟩

/-- C9: on every session state this app can produce (`Reachable`) in
which `count` is already set, a request with any key other than
`"count"` leaves the `count` field unchanged. -/
theorem claim_C9 (s : Session) (hr : Reachable s) (v : Val)
    (h : sget s "count" = some v) (key : String) (hk : key ≠ "count")
    (c : List (String × String)) :
    sget (nextSession key c s) "count" = some v := by
  obtain ⟨n, rfl⟩ := (Reachable.wf s hr).2 v h
  have hic : sget (initSession s) "count" = some (.int n) := by
    rw [sget_init_count, h, orDefault_int_zero]
  rw [nextSession, show_session_not_count key c s hk]
  cases hg : sget (initSession s) key with
  | none => exact h
  | some w => exact hic

/-- Witness for C9: the state after one `"count"` request is reachable
with `count = 1`, and a `"hello"` request keeps `count = 1`. -/
theorem claim_C9_witness :
    sget (countState 1) "count" = some (.int 1) ∧
    sget (nextSession "hello" [] (countState 1)) "count" = some (.int 1) :=
  ⟨rfl, claim_C9 (countState 1)
    (Reachable.step "count" [] [] (countState 1) ⟨200, "count", .int 1, true, []⟩
      Reachable.nil rfl)
    (.int 1) rfl "hello" (by decide) []⟩

/-- C10: for every incoming session state and every key, the handler
writes only the session fields `hello`, `goodnight`, `count`: any other
field is left unchanged by the request. -/
theorem claim_C10 (s : Session) (key : String) (c : List (String × String)) (k2 : String)
    (h1 : k2 ≠ "hello") (h2 : k2 ≠ "goodnight") (h3 : k2 ≠ "count") :
    sget (nextSession key c s) k2 = sget s k2 := by
  rw [nextSession]
  cases hres : show_session key c s with
  | error e => rfl
  | ok p =>
    obtain ⟨s2, r⟩ := p
    show sget s2 k2 = sget s k2
    rw [show_session_ok_sget key c s s2 r hres k2 h3, sget_init_other s k2 h1 h2 h3]

/-- Witness for C10: a `"hello"` request leaves the absent field `"foo"`
absent. -/
theorem claim_C10_witness :
    sget (nextSession "hello" [] []) "foo" = sget [] "foo" :=
  claim_C10 [] "hello" [] "foo" (by decide) (by decide) (by decide)

end SessionApp
